import Mathlib

/-!
Shallow embedding of the pure computation layer of the gardentrack
single-page application (files `static/js/ui.js`, `static/js/bottles.js`,
`static/js/chartManager.js`, `static/js/devices.js`).

JavaScript numbers are idealised as exact rationals (`ℚ`); `Date` values
are modelled by the three observations the code makes of them
(`getTime`, `getFullYear`, `getMonth`); values whose JavaScript runtime
type can be either a number or a string are modelled by the sum type
`JsVal`; a possibly `null`/`undefined` argument is an `Option`.
-/

/-- A dynamically typed JavaScript value, as far as the statistics code
produces them: a number or a string. -/
inductive JsVal where
  | num (q : ℚ)
  | str (s : String)
deriving DecidableEq, Repr

/-- A JavaScript `Date`, reduced to the three observations the code
makes of it: `getTime()` (milliseconds since the epoch), `getFullYear()`
and `getMonth()` (0 = January … 11 = December, always in range for a
valid date). -/
structure JsDate where
  ms : Int
  year : Int
  month : Fin 12
deriving DecidableEq, Repr

/-- Stable insertion of `a` into a list sorted descending by `key`:
`a` is placed before the first element whose key is not larger, so among
equal keys the inserted element comes first. -/
def insertDesc (key : α → Int) (a : α) : List α → List α
  | [] => [a]
  | b :: l => if key b ≤ key a then a :: b :: l else b :: insertDesc key a l

/-- `Array.prototype.sort` with the comparator
`(a, b) => key(b) - key(a)` (used in the source as
`(a, b) => new Date(b.date) - new Date(a.date)` and
`(a, b) => new Date(b.start_time) - new Date(a.start_time)`).
ECMAScript sorts are stable and a stable permutation ordered by a total
preorder comparator is unique, so this structural insertion sort is the
exact semantics of the call. -/
def jsSortDesc (key : α → Int) : List α → List α
  | [] => []
  | a :: l => insertDesc key a (jsSortDesc key l)

/-- Renders a non-negative number of tenths as a one-decimal string,
e.g. `80 ↦ "8.0"`. -/
def jsToFixed1Nat (n : Nat) : String :=
  toString (n / 10) ++ "." ++ toString (n % 10)

/-- `Number.prototype.toFixed(1)`: round to the nearest tenth, ties away
from zero, then print with exactly one fractional digit (ECMAScript
prepends the sign for negative inputs). -/
def jsToFixed1 (q : ℚ) : String :=
  if q < 0 then ("-") ++ jsToFixed1Nat (Int.toNat ⌊-q * 10 + 1 / 2⌋)
  else jsToFixed1Nat (Int.toNat ⌊q * 10 + 1 / 2⌋)

/-- `parseFloat(x.toFixed(1))`: the numeric value of `x` rounded to one
decimal, ties away from zero. -/
def jsRound1 (q : ℚ) : ℚ :=
  if q < 0 then -((⌊-q * 10 + 1 / 2⌋ : ℚ) / 10) else (⌊q * 10 + 1 / 2⌋ : ℚ) / 10

/-- `parseFloat(x.toFixed(2))`: the numeric value of `x` rounded to two
decimals, ties away from zero. -/
def jsRound2 (q : ℚ) : ℚ :=
  if q < 0 then -((⌊-q * 100 + 1 / 2⌋ : ℚ) / 100) else (⌊q * 100 + 1 / 2⌋ : ℚ) / 100

/-- `arr[i] += v` on a number array: bump the `i`-th entry by `v`.  The
source only ever uses it with `i = date.getMonth() < 12 = arr.length`. -/
def addAt : List ℚ → Nat → ℚ → List ℚ
  | [], _, _ => []
  | x :: xs, 0, v => (x + v) :: xs
  | x :: xs, n + 1, v => x :: addAt xs n v

/-- A device operation record as consumed by `DataManager`
(`ui.js`): two timestamps. -/
structure DOperation where
  start_time : JsDate
  end_time : JsDate
deriving DecidableEq, Repr

/-- A bottle operation record (`ui.js`, `calculateBottleStats`): a
weighing on a date. -/
structure BOperation where
  date : JsDate
  weight : ℚ
deriving DecidableEq, Repr

/-- A gas bottle as consumed by `DataManager.calculateBottleStats`;
`operations` may be `null`/`undefined` (`none`). -/
structure Bottle where
  initial_weight : ℚ
  filling_weight : ℚ
  operations : Option (List BOperation)

/-- The record returned by `DataManager.calculateBottleStats`.  Field
types record the JavaScript runtime types of the returned values:
`totalUsedGas` and `remainingGasKg` come out of `toFixed(1)` and can be
strings, so they are `JsVal`; the remaining fields are always
numbers. -/
structure BottleStats where
  operationsCount : Nat
  currentWeight : ℚ
  bottleWeight : ℚ
  totalUsedGas : JsVal
  remainingGasKg : JsVal
  remainingPercentage : ℚ
  lastOperation : Option BOperation

/-- `(new Date(op.end_time).getTime() - new Date(op.start_time).getTime()) / 60000`,
the duration of an operation in minutes. -/
def durationMinutes (op : DOperation) : ℚ :=
  ((op.end_time.ms - op.start_time.ms : Int) : ℚ) / 60000

/-- `DataManager.calculateTotalDuration` (ui.js:207-215): 0 for a
nullish or empty argument, otherwise the `reduce` of the per-operation
durations in minutes. -/
def calculateTotalDuration (operations : Option (List DOperation)) : ℚ :=
  match operations with
  | none => 0
  | some ops =>
      if ops.length = 0 then 0
      else ops.foldl (fun sum op => sum + durationMinutes op) 0

/-- `DataManager.filterOperationsByYear` (ui.js:223-230): `[]` for a
nullish argument, otherwise the operations whose `start_time` falls in
`year`. -/
def filterOperationsByYear (operations : Option (List DOperation)) (year : Int) :
    List DOperation :=
  match operations with
  | none => []
  | some ops => ops.filter (fun op => decide (op.start_time.year = year))

/-- `DataManager.getLastOperation` (ui.js:237-244): `null` for a nullish
or empty argument, otherwise the head of a copy sorted descending by
`start_time`. -/
def getLastOperation (operations : Option (List DOperation)) : Option DOperation :=
  match operations with
  | none => none
  | some ops =>
      if ops.length = 0 then none
      else (jsSortDesc (fun op => op.start_time.ms) ops).head?

/-- `DataManager.calculateMonthlyStats` (ui.js:252-267): twelve buckets
of hours, one per month of `year`, accumulated with `forEach` over the
operations (all zero for a nullish argument). -/
def calculateMonthlyStats (operations : Option (List DOperation)) (year : Int) :
    List ℚ :=
  let monthlyDurations := List.replicate 12 (0 : ℚ)
  match operations with
  | none => monthlyDurations
  | some ops =>
      ops.foldl
        (fun acc op =>
          if op.start_time.year = year then
            addAt acc op.start_time.month.val (durationMinutes op / 60)
          else acc)
        monthlyDurations

/-- `[...bottle.operations].sort((a, b) => new Date(b.date) - new Date(a.date))`
inside `calculateBottleStats`, `[]` when `operations` is nullish. -/
def sortedOperationsOf (bottle : Bottle) : List BOperation :=
  match bottle.operations with
  | some ops => jsSortDesc (fun op => op.date.ms) ops
  | none => []

/-- The `currentWeight` local of `calculateBottleStats`: the weight of
`sortedOperations[0]` when it exists, else `initial_weight`. -/
def currentWeightOf (bottle : Bottle) : ℚ :=
  match (sortedOperationsOf bottle).head? with
  | some op => op.weight
  | none => bottle.initial_weight

/-- `DataManager.calculateBottleStats` (ui.js:290-312). -/
def calculateBottleStats (bottle : Bottle) : BottleStats :=
  let operationsCount := (bottle.operations.getD []).length
  let lastOperation := (sortedOperationsOf bottle).head?
  let currentWeight := currentWeightOf bottle
  let bottleWeight := bottle.initial_weight - bottle.filling_weight
  let remainingPercentage :=
    if bottleWeight > 0 then ((currentWeight - bottle.filling_weight) / bottleWeight) * 100
    else 0
  { operationsCount := operationsCount
    currentWeight := currentWeight
    bottleWeight := bottleWeight
    totalUsedGas := JsVal.str (jsToFixed1 (bottle.initial_weight - currentWeight))
    remainingGasKg := JsVal.str (jsToFixed1 (currentWeight - bottle.filling_weight))
    remainingPercentage := jsRound1 remainingPercentage
    lastOperation := lastOperation }

/-- The colour the consumption bar chart assigns to the "ok" band
(green, bottles.js:818). -/
def okColor : String := "rgba(46, 204, 113, 0.8)"

/-- The colour of the "warn" band (orange, bottles.js:819). -/
def warnColor : String := "rgba(243, 156, 18, 0.8)"

/-- The colour of the "critical" band (red, bottles.js:820). -/
def criticalColor : String := "rgba(231, 76, 60, 0.8)"

/-- The per-bottle colour classification of
`BottleManager.updateConsumptionChart` (bottles.js:815-821 and the same
code in the unnamed source file): green at ≥ 50 %, orange at ≥ 20 %,
red below. -/
def consumptionBandColor (percentage : ℚ) : String :=
  if percentage ≥ 50 then ("rgba(46, 204, 113, 0.8)")
  else if percentage ≥ 20 then ("rgba(243, 156, 18, 0.8)")
  else ("rgba(231, 76, 60, 0.8)")

/-- The hour-axis step-size selection of
`ChartManager.createMonthlyTrendChart` (chartManager.js:348-367) as a
function of the maximum data value. -/
def stepSizeFor (maxValue : ℚ) : ℚ :=
  if maxValue ≤ 0.1 then 0.02
  else if maxValue ≤ 1 then 0.1
  else if maxValue ≤ 5 then 0.5
  else if maxValue ≤ 10 then 1
  else (⌈maxValue / 8⌉ : ℚ)

/-- A device operation as consumed by
`DeviceManager.renderMonthlyTrendChart` (devices.js): a date and a
duration in minutes. -/
structure TrendOp where
  date : JsDate
  duration : ℚ
deriving DecidableEq, Repr

/-- A device as consumed by `DeviceManager.renderMonthlyTrendChart`. -/
structure TrendDevice where
  name : String
  active : Bool
  operations : Option (List TrendOp)

/-- The label/data core of a Chart.js dataset pushed by
`renderMonthlyTrendChart`; the presentation-only colour and point-style
fields do not affect which datasets exist and are omitted. -/
structure TrendDataset where
  label : String
  data : List ℚ
deriving DecidableEq, Repr

/-- The `monthlyDurationsHours` array computed per device inside
`DeviceManager.renderMonthlyTrendChart` (devices.js:784-793): twelve
hour buckets for the requested year. -/
def monthlyDurationsHoursOf (device : TrendDevice) (year : Int) : List ℚ :=
  (device.operations.getD []).foldl
    (fun acc op =>
      if op.date.year = year then addAt acc op.date.month.val (op.duration / 60)
      else acc)
    (List.replicate 12 (0 : ℚ))

/-- The dataset list assembled by `DeviceManager.renderMonthlyTrendChart`
(devices.js:783-811): for each active device, in order, push a dataset
exactly when some monthly bucket is `> 0`, with the buckets rounded to
two decimals. -/
def renderMonthlyTrendDatasets (devices : List TrendDevice) (year : Int) :
    List TrendDataset :=
  (devices.filter (fun device => device.active)).foldl
    (fun datasets device =>
      let monthlyDurationsHours := monthlyDurationsHoursOf device year
      if monthlyDurationsHours.any (fun val => decide (0 < val)) then
        datasets ++
          [{ label := device.name, data := monthlyDurationsHours.map jsRound2 }]
      else datasets)
    []

/-- The bottle of the first `BottleStats` test vector in the spec:
`initial_weight = 20`, `filling_weight = 12`, empty operations list. -/
def c1Bottle : Bottle :=
  { initial_weight := 20, filling_weight := 12, operations := some [] }

/-- A bottle whose remaining percentage is not expressible with one
decimal: `bottleWeight = 3` and one weighing at 21 kg. -/
def c2Bottle : Bottle :=
  { initial_weight := 23, filling_weight := 20,
    operations := some [{ date := ⟨0, 2024, 0⟩, weight := 21 }] }

/-- A bottle with two weighings; the later one (day 200) reads 15 kg. -/
def c4Bottle : Bottle :=
  { initial_weight := 20, filling_weight := 12,
    operations := some
      [{ date := ⟨100, 2024, 0⟩, weight := 18 },
       { date := ⟨200, 2024, 1⟩, weight := 15 }] }

/-- An operation running from 10:00 to 10:30 (timestamps in ms within
one day, 1 800 000 ms apart). -/
def c5Op : DOperation :=
  { start_time := ⟨36000000, 2024, 5⟩, end_time := ⟨37800000, 2024, 5⟩ }

/-- An active device whose only 2024 operation has a negative duration,
so its June bucket is non-zero but not positive. -/
def c7NegDevice : TrendDevice :=
  { name := "Pumpe", active := true,
    operations := some [{ date := ⟨0, 2024, 5⟩, duration := -60 }] }

/-- An active device whose only operation lies in 2023, so all twelve
of its 2024 buckets are zero. -/
def c7OtherYearDevice : TrendDevice :=
  { name := "Rasenmäher", active := true,
    operations := some [{ date := ⟨0, 2023, 2⟩, duration := 120 }] }

/-- A bottle whose `operations` field is nullish. -/
def c9Bottle : Bottle :=
  { initial_weight := 11, filling_weight := 5, operations := none }

theorem length_addAt (l : List ℚ) (i : Nat) (v : ℚ) :
    (addAt l i v).length = l.length := by
  induction l generalizing i with
  | nil => cases i <;> rfl
  | cons x xs ih => cases i with
    | zero => rfl
    | succ n => simpa [addAt] using ih n

theorem sum_addAt (l : List ℚ) (i : Nat) (v : ℚ) (h : i < l.length) :
    (addAt l i v).sum = l.sum + v := by
  induction l generalizing i with
  | nil => simp at h
  | cons x xs ih =>
      cases i with
      | zero => simp [addAt]; ring
      | succ n =>
          have hn : n < xs.length := by simpa using h
          simp [addAt, ih n hn]; ring

theorem foldl_add_durationMinutes (ops : List DOperation) (a : ℚ) :
    ops.foldl (fun sum op => sum + durationMinutes op) a
      = a + (ops.map durationMinutes).sum := by
  induction ops generalizing a with
  | nil => simp
  | cons op l ih => simp [List.foldl, ih]; ring

theorem calculateTotalDuration_eq_sum (ops : List DOperation) :
    calculateTotalDuration (some ops) = (ops.map durationMinutes).sum := by
  cases ops with
  | nil => rfl
  | cons op l => simp [calculateTotalDuration, foldl_add_durationMinutes]

/-- C10: every `DataManager` collection function tolerates a nullish
`operations` argument: `calculateTotalDuration` returns 0,
`filterOperationsByYear` returns `[]`, `getLastOperation` returns
`null`, and `calculateMonthlyStats` returns twelve zero buckets; all
four are total functions, so none can throw. -/
theorem nullish_tolerance_c10 :
    calculateTotalDuration none = 0 ∧
    (∀ year : Int, filterOperationsByYear none year = []) ∧
    getLastOperation none = none ∧
    (∀ year : Int, calculateMonthlyStats none year = List.replicate 12 0) :=
  ⟨rfl, fun _ => rfl, rfl, fun _ => rfl⟩

/-- C5: `calculateTotalDuration` returns 0 on the empty list and in
general the sum of the per-operation `(end_time − start_time)` spans in
minutes; a single 10:00–10:30 operation yields 30. -/
theorem totalDuration_c5 :
    calculateTotalDuration (some []) = 0 ∧
    (∀ ops : List DOperation,
      calculateTotalDuration (some ops)
        = (ops.map
            (fun op => ((op.end_time.ms - op.start_time.ms : Int) : ℚ) / 60000)).sum) ∧
    calculateTotalDuration (some [c5Op]) = 30 := by
  refine ⟨rfl, fun ops => calculateTotalDuration_eq_sum ops, ?_⟩
  rw [calculateTotalDuration_eq_sum]
  norm_num [c5Op, durationMinutes]

/-- C6: the consumption-chart banding maps every percentage ≥ 50 to the
"ok" colour, every percentage in [20, 50) to the "warn" colour and
every percentage < 20 to the "critical" colour; both thresholds are
inclusive lower bounds. -/
theorem consumptionBand_c6 (p : ℚ) :
    (50 ≤ p → consumptionBandColor p = okColor) ∧
    (20 ≤ p → p < 50 → consumptionBandColor p = warnColor) ∧
    (p < 20 → consumptionBandColor p = criticalColor) := by
  refine ⟨fun h => ?_, fun h1 h2 => ?_, fun h => ?_⟩ <;>
  · simp only [consumptionBandColor, okColor, warnColor, criticalColor]
    split_ifs <;> first | rfl | linarith

/-- Witness for C6 at the boundary and interior points named by the
spec: 50 % and 55 % are "ok", 20 % is "warn", 19.9 % is "critical". -/
theorem consumptionBand_c6_witness :
    consumptionBandColor 50 = okColor ∧
    consumptionBandColor 55 = okColor ∧
    consumptionBandColor 20 = warnColor ∧
    consumptionBandColor (199 / 10) = criticalColor :=
  ⟨(consumptionBand_c6 50).1 (by norm_num),
   (consumptionBand_c6 55).1 (by norm_num),
   (consumptionBand_c6 20).2.1 (by norm_num) (by norm_num),
   (consumptionBand_c6 (199 / 10)).2.2 (by norm_num)⟩

/-- C8: the hour-axis step size of the monthly trend chart is selected
from the maximum data value `m` by magnitude banding: `m ≤ 0.1 ↦ 0.02`,
`0.1 < m ≤ 1 ↦ 0.1`, `1 < m ≤ 5 ↦ 0.5`, `5 < m ≤ 10 ↦ 1`, and
`10 < m ↦ ⌈m / 8⌉`. -/
theorem stepSize_c8 (m : ℚ) :
    (m ≤ 0.1 → stepSizeFor m = 0.02) ∧
    (0.1 < m → m ≤ 1 → stepSizeFor m = 0.1) ∧
    (1 < m → m ≤ 5 → stepSizeFor m = 0.5) ∧
    (5 < m → m ≤ 10 → stepSizeFor m = 1) ∧
    (10 < m → stepSizeFor m = (⌈m / 8⌉ : ℚ)) := by
  refine ⟨fun h => ?_, fun h1 h2 => ?_, fun h1 h2 => ?_, fun h1 h2 => ?_, fun h => ?_⟩ <;>
  · simp only [stepSizeFor]
    split_ifs <;> first | rfl | linarith

/-- Witness for C8: one representative per band, including
`stepSizeFor 20 = ⌈20 / 8⌉ = 3`. -/
theorem stepSize_c8_witness :
    stepSizeFor (1 / 20) = 0.02 ∧
    stepSizeFor (1 / 2) = 0.1 ∧
    stepSizeFor 3 = 0.5 ∧
    stepSizeFor 7 = 1 ∧
    stepSizeFor 20 = 3 := by
  refine ⟨(stepSize_c8 (1 / 20)).1 (by norm_num),
    (stepSize_c8 (1 / 2)).2.1 (by norm_num) (by norm_num),
    (stepSize_c8 3).2.2.1 (by norm_num) (by norm_num),
    (stepSize_c8 7).2.2.2.1 (by norm_num) (by norm_num), ?_⟩
  rw [(stepSize_c8 20).2.2.2.2 (by norm_num)]
  have h : ⌈(20 : ℚ) / 8⌉ = 3 := by
    rw [Int.ceil_eq_iff]
    norm_num
  rw [h]
  norm_num

theorem monthly_foldl_sum (year : Int) (ops : List DOperation) (acc : List ℚ)
    (h : acc.length = 12) :
    (ops.foldl
      (fun acc op =>
        if op.start_time.year = year then
          addAt acc op.start_time.month.val (durationMinutes op / 60)
        else acc)
      acc).sum
    = acc.sum
      + ((ops.filter (fun op => decide (op.start_time.year = year))).map
          (fun op => durationMinutes op / 60)).sum := by
  induction ops generalizing acc with
  | nil => simp
  | cons op l ih =>
      by_cases hy : op.start_time.year = year
      · have hlen : (addAt acc op.start_time.month.val (durationMinutes op / 60)).length
            = 12 := by rw [length_addAt]; exact h
        have hm : (op.start_time.month.val : Nat) < acc.length := by
          rw [h]; exact op.start_time.month.isLt
        simp only [List.foldl, hy, if_true, List.filter_cons, decide_eq_true_eq,
          List.map_cons, List.sum_cons, ih _ hlen, sum_addAt _ _ _ hm]
        ring
      · simp only [List.foldl, hy, if_false, List.filter_cons, decide_eq_true_eq,
          List.map_cons, List.sum_cons, ih _ h]

theorem sum_div60_mul_60 (l : List DOperation) :
    ((l.map (fun op => durationMinutes op / 60)).sum) * 60 = (l.map durationMinutes).sum := by
  induction l with
  | nil => simp
  | cons op t ih =>
      simp only [List.map_cons, List.sum_cons, add_mul, ih]
      ring_nf

/-- C3: for every operation list and year, the twelve monthly hour
buckets of `calculateMonthlyStats` sum — after conversion back to
minutes — exactly to `calculateTotalDuration` of the year-filtered
operations (exact equality over `ℚ`, so in particular within floating
rounding). -/
theorem monthly_total_c3 (ops : List DOperation) (year : Int) :
    (calculateMonthlyStats (some ops) year).sum * 60
      = calculateTotalDuration (some (filterOperationsByYear (some ops) year)) := by
  rw [calculateTotalDuration_eq_sum]
  show (ops.foldl _ (List.replicate 12 (0 : ℚ))).sum * 60 = _
  rw [monthly_foldl_sum year ops (List.replicate 12 0) (by simp)]
  show (_ + _) * 60 = ((ops.filter _).map durationMinutes).sum
  rw [List.sum_replicate, smul_zero, zero_add, sum_div60_mul_60]

theorem head_jsSortDesc_max (key : α → Int) (l : List α) (h : l ≠ []) :
    ∃ m, (jsSortDesc key l).head? = some m ∧ m ∈ l ∧ ∀ x ∈ l, key x ≤ key m := by
  induction l with
  | nil => exact absurd rfl h
  | cons a t ih =>
      cases t with
      | nil =>
          refine ⟨a, ?_, by simp, ?_⟩
          · simp [jsSortDesc, insertDesc]
          · intro x hx
            have : x = a := by simpa using hx
            simp [this]
      | cons b t2 =>
          obtain ⟨m, hm1, hm2, hm3⟩ := ih (by simp)
          obtain ⟨rest, hrest⟩ : ∃ rest, jsSortDesc key (b :: t2) = m :: rest := by
            cases hs : jsSortDesc key (b :: t2) with
            | nil => rw [hs] at hm1; simp at hm1
            | cons y ys =>
                rw [hs] at hm1
                simp only [List.head?] at hm1
                exact ⟨ys, by rw [Option.some_inj] at hm1; rw [hm1]⟩
          by_cases hk : key m ≤ key a
          · refine ⟨a, ?_, by simp, ?_⟩
            · show (insertDesc key a (jsSortDesc key (b :: t2))).head? = some a
              rw [hrest]
              simp [insertDesc, hk]
            · intro x hx
              rcases List.mem_cons.mp hx with rfl | hx2
              · exact le_refl _
              · exact le_trans (hm3 x hx2) hk
          · refine ⟨m, ?_, List.mem_cons_of_mem _ hm2, ?_⟩
            · show (insertDesc key a (jsSortDesc key (b :: t2))).head? = some m
              rw [hrest]
              simp [insertDesc, hk]
            · intro x hx
              rcases List.mem_cons.mp hx with rfl | hx2
              · exact le_of_lt (lt_of_not_le hk)
              · exact hm3 x hx2

/-- C4: `currentWeight` in `calculateBottleStats` is the field
`initial_weight` of the bottle when there are no operations, and otherwise the weight
of an operation whose date is the most recent one (maximal timestamp)
among the operations of the bottle. -/
theorem currentWeight_c4 (b : Bottle) :
    (b.operations.getD [] = [] →
      (calculateBottleStats b).currentWeight = b.initial_weight) ∧
    (b.operations.getD [] ≠ [] →
      ∃ op, op ∈ b.operations.getD [] ∧
        (calculateBottleStats b).currentWeight = op.weight ∧
        ∀ op2 ∈ b.operations.getD [], op2.date.ms ≤ op.date.ms) := by
  have hcw : (calculateBottleStats b).currentWeight = currentWeightOf b := rfl
  cases hops : b.operations with
  | none =>
      refine ⟨fun _ => ?_, fun hne => absurd rfl hne⟩
      rw [hcw]
      simp [currentWeightOf, sortedOperationsOf, hops]
  | some ops =>
      cases ops with
      | nil =>
          refine ⟨fun _ => ?_, fun hne => absurd rfl hne⟩
          rw [hcw]
          simp [currentWeightOf, sortedOperationsOf, hops, jsSortDesc]
      | cons o t =>
          refine ⟨fun hemp => by simp at hemp, fun _ => ?_⟩
          obtain ⟨m, hm1, hm2, hm3⟩ :=
            head_jsSortDesc_max (fun op => op.date.ms) (o :: t) (by simp)
          refine ⟨m, hm2, ?_, fun op2 hop2 => hm3 op2 hop2⟩
          rw [hcw]
          simp [currentWeightOf, sortedOperationsOf, hops, hm1]

/-- Witness for C4 on a concrete bottle with two weighings: the later
weighing (15 kg at timestamp 200) supplies `currentWeight`. -/
theorem currentWeight_c4_witness :
    c4Bottle.operations.getD [] ≠ [] ∧
    ∃ op, op ∈ c4Bottle.operations.getD [] ∧
      (calculateBottleStats c4Bottle).currentWeight = op.weight ∧
      ∀ op2 ∈ c4Bottle.operations.getD [], op2.date.ms ≤ op.date.ms :=
  ⟨by simp [c4Bottle], (currentWeight_c4 c4Bottle).2 (by simp [c4Bottle])⟩

theorem foldl_pushIf {α β : Type} (f : α → Bool) (g : α → β) (l : List α)
    (acc : List β) :
    l.foldl (fun ds a => if f a then ds ++ [g a] else ds) acc
      = acc ++ (l.filter f).map g := by
  induction l generalizing acc with
  | nil => simp
  | cons a t ih =>
      by_cases hf : f a
      · simp [List.foldl, hf, ih, List.filter_cons]
      · simp [List.foldl, hf, ih, List.filter_cons]

theorem foldl_fixed {α β : Type} (f : β → α → β) (l : List α) (b : β)
    (h : ∀ a ∈ l, ∀ x, f x a = x) : l.foldl f b = b := by
  induction l generalizing b with
  | nil => rfl
  | cons a t ih =>
      rw [List.foldl_cons, h a (List.mem_cons_self a t), ih]
      intro x hx y
      exact h x (List.mem_cons_of_mem _ hx) y

theorem renderMonthlyTrendDatasets_eq (devices : List TrendDevice) (year : Int) :
    renderMonthlyTrendDatasets devices year
      = ((devices.filter (fun d => d.active)).filter
          (fun d => (monthlyDurationsHoursOf d year).any (fun val => decide (0 < val)))).map
          (fun d =>
            { label := d.name, data := (monthlyDurationsHoursOf d year).map jsRound2 }) :=
  (foldl_pushIf
      (fun d => (monthlyDurationsHoursOf d year).any (fun val => decide (0 < val)))
      (fun d =>
        ({ label := d.name,
           data := (monthlyDurationsHoursOf d year).map jsRound2 } : TrendDataset))
      (devices.filter (fun d => d.active)) []).trans
    (List.nil_append _)

theorem monthlyDurationsHoursOf_no_op_in_year (d : TrendDevice) (year : Int)
    (h : ∀ op ∈ d.operations.getD [], op.date.year ≠ year) :
    monthlyDurationsHoursOf d year = List.replicate 12 0 := by
  unfold monthlyDurationsHoursOf
  refine foldl_fixed _ _ _ ?_
  intro op hop x
  simp [h op hop]

/-- C7 counterexample: an active device whose only 2024 operation lasts
−60 minutes has a non-zero (negative) June bucket, yet the trend series
omits it — the source keeps a device only when some bucket is
strictly positive, not merely non-zero. -/
theorem monthlyTrend_c7_counterexample :
    c7NegDevice.active = true ∧
    ((monthlyDurationsHoursOf c7NegDevice 2024).any (fun val => decide (val ≠ 0)))
      = true ∧
    renderMonthlyTrendDatasets [c7NegDevice] 2024 = [] := by
  have hbuckets : monthlyDurationsHoursOf c7NegDevice 2024
      = [0, 0, 0, 0, 0, -1, 0, 0, 0, 0, 0, 0] := by
    simp only [monthlyDurationsHoursOf, c7NegDevice, Option.getD_some, List.foldl_cons,
      List.foldl_nil, List.replicate]
    norm_num [addAt]
  refine ⟨rfl, ?_, ?_⟩
  · rw [hbuckets]
    simp
  · rw [renderMonthlyTrendDatasets_eq]
    have h1 : ([c7NegDevice].filter (fun d => d.active)) = [c7NegDevice] := by
      simp [c7NegDevice]
    have h2 : ((monthlyDurationsHoursOf c7NegDevice 2024).any
        (fun val => decide (0 < val))) = false := by
      rw [hbuckets]
      norm_num
    rw [h1]
    simp [List.filter_cons, h2]

/-- C7 (amended): the monthly trend series is exactly one dataset per
active device with at least one strictly positive monthly bucket in the
requested year, in order; every other device — in particular one whose
buckets are all zero because all of its operations lie in other years —
is omitted. -/
theorem monthlyTrend_c7_amended (devices : List TrendDevice) (year : Int) :
    (renderMonthlyTrendDatasets devices year
      = ((devices.filter (fun d => d.active)).filter
          (fun d => (monthlyDurationsHoursOf d year).any (fun val => decide (0 < val)))).map
          (fun d =>
            { label := d.name, data := (monthlyDurationsHoursOf d year).map jsRound2 })) ∧
    (∀ d : TrendDevice, (∀ op ∈ d.operations.getD [], op.date.year ≠ year) →
      monthlyDurationsHoursOf d year = List.replicate 12 0) :=
  ⟨renderMonthlyTrendDatasets_eq devices year,
   fun d h => monthlyDurationsHoursOf_no_op_in_year d year h⟩

/-- Witness for C7: a device whose only operation lies in 2023 has all
twelve 2024 buckets equal to zero. -/
theorem monthlyTrend_c7_witness :
    (∀ op ∈ c7OtherYearDevice.operations.getD [], op.date.year ≠ 2024) ∧
    monthlyDurationsHoursOf c7OtherYearDevice 2024 = List.replicate 12 0 :=
  ⟨by intro op hop; simp [c7OtherYearDevice] at hop; simp [hop],
   (monthlyTrend_c7_amended [c7OtherYearDevice] 2024).2 c7OtherYearDevice
     (by intro op hop; simp [c7OtherYearDevice] at hop; simp [hop])⟩

theorem currentWeight_eval (b : Bottle) :
    (calculateBottleStats b).currentWeight = currentWeightOf b := rfl

theorem bottleWeight_eval (b : Bottle) :
    (calculateBottleStats b).bottleWeight = b.initial_weight - b.filling_weight := rfl

theorem totalUsedGas_eval (b : Bottle) :
    (calculateBottleStats b).totalUsedGas
      = JsVal.str (jsToFixed1 (b.initial_weight - currentWeightOf b)) := rfl

theorem remainingGasKg_eval (b : Bottle) :
    (calculateBottleStats b).remainingGasKg
      = JsVal.str (jsToFixed1 (currentWeightOf b - b.filling_weight)) := rfl

theorem remainingPercentage_eval (b : Bottle) :
    (calculateBottleStats b).remainingPercentage
      = jsRound1 (if b.initial_weight - b.filling_weight > 0 then
          ((currentWeightOf b - b.filling_weight)
            / (b.initial_weight - b.filling_weight)) * 100
        else 0) := rfl

theorem jsRound1_zero : jsRound1 0 = 0 := by
  unfold jsRound1
  rw [if_neg (by norm_num)]
  norm_num

theorem jsRound1_100 : jsRound1 100 = 100 := by
  unfold jsRound1
  rw [if_neg (by norm_num)]
  norm_num

theorem jsToFixed1_zero : jsToFixed1 0 = "0.0" := by
  have h : ⌊(0 : ℚ) * 10 + 1 / 2⌋ = 0 := by norm_num
  unfold jsToFixed1
  rw [if_neg (by norm_num), h]
  decide

theorem jsToFixed1_eight : jsToFixed1 8 = "8.0" := by
  have h : ⌊(8 : ℚ) * 10 + 1 / 2⌋ = 80 := by norm_num
  unfold jsToFixed1
  rw [if_neg (by norm_num), h]
  decide

/-- C1 counterexample: on the test bottle of the spec the code returns
`totalUsedGas` and `remainingGasKg` as the strings `"0.0"` and `"8.0"`
(results of `toFixed(1)`), not as the numbers 0 and 8 the test vector
states. -/
theorem bottleStats_c1_counterexample :
    (calculateBottleStats c1Bottle).totalUsedGas ≠ JsVal.num 0 ∧
    (calculateBottleStats c1Bottle).remainingGasKg ≠ JsVal.num 8 := by
  rw [totalUsedGas_eval, remainingGasKg_eval]
  exact ⟨fun h => JsVal.noConfusion h, fun h => JsVal.noConfusion h⟩

/-- C1 (amended): for the bottle with `initial_weight = 20`,
`filling_weight = 12` and an empty operations list,
`calculateBottleStats` returns `currentWeight = 20`, `bottleWeight = 8`,
`totalUsedGas = "0.0"`, `remainingGasKg = "8.0"` and
`remainingPercentage = 100`. -/
theorem bottleStats_c1_amended :
    (calculateBottleStats c1Bottle).currentWeight = 20 ∧
    (calculateBottleStats c1Bottle).bottleWeight = 8 ∧
    (calculateBottleStats c1Bottle).totalUsedGas = JsVal.str ("0.0") ∧
    (calculateBottleStats c1Bottle).remainingGasKg = JsVal.str ("8.0") ∧
    (calculateBottleStats c1Bottle).remainingPercentage = 100 := by
  have hcw : currentWeightOf c1Bottle = 20 := rfl
  have h1 : c1Bottle.initial_weight - currentWeightOf c1Bottle = 0 := by
    rw [hcw]
    norm_num [c1Bottle]
  have h2 : currentWeightOf c1Bottle - c1Bottle.filling_weight = 8 := by
    rw [hcw]
    norm_num [c1Bottle]
  refine ⟨(currentWeight_eval c1Bottle).trans hcw, ?_, ?_, ?_, ?_⟩
  · rw [bottleWeight_eval]
    norm_num [c1Bottle]
  · rw [totalUsedGas_eval, h1, jsToFixed1_zero]
  · rw [remainingGasKg_eval, h2, jsToFixed1_eight]
  · rw [remainingPercentage_eval, if_pos (by norm_num [c1Bottle])]
    have harg : ((currentWeightOf c1Bottle - c1Bottle.filling_weight)
        / (c1Bottle.initial_weight - c1Bottle.filling_weight)) * 100 = 100 := by
      rw [hcw]
      norm_num [c1Bottle]
    rw [harg, jsRound1_100]

/-- C2 counterexample: a bottle with `bottleWeight = 3` and current
weight 21 kg has exact percentage 100/3, but the code returns the
one-decimal rounding 33.3, so the claimed exact formula fails. -/
theorem remainingPercentage_c2_counterexample :
    (calculateBottleStats c2Bottle).bottleWeight > 0 ∧
    (calculateBottleStats c2Bottle).remainingPercentage
      ≠ ((calculateBottleStats c2Bottle).currentWeight - c2Bottle.filling_weight)
          / (calculateBottleStats c2Bottle).bottleWeight * 100 := by
  have hcw : currentWeightOf c2Bottle = 21 := rfl
  rw [bottleWeight_eval, currentWeight_eval, remainingPercentage_eval, hcw]
  refine ⟨by norm_num [c2Bottle], ?_⟩
  rw [if_pos (by norm_num [c2Bottle])]
  have h : ((21 : ℚ) - c2Bottle.filling_weight)
      / (c2Bottle.initial_weight - c2Bottle.filling_weight) * 100 = 100 / 3 := by
    norm_num [c2Bottle]
  rw [h]
  unfold jsRound1
  rw [if_neg (by norm_num)]
  norm_num

/-- C2 (amended): `remainingPercentage` is 0 when `bottleWeight = 0`
(the division is never taken, so no `Infinity`/`NaN` can arise), and
for `bottleWeight > 0` it is
`(currentWeight − filling_weight) / bottleWeight * 100` rounded to one
decimal (`parseFloat(x.toFixed(1))`). -/
theorem remainingPercentage_c2_amended (b : Bottle) :
    ((calculateBottleStats b).bottleWeight = 0 →
      (calculateBottleStats b).remainingPercentage = 0) ∧
    ((calculateBottleStats b).bottleWeight > 0 →
      (calculateBottleStats b).remainingPercentage
        = jsRound1 (((calculateBottleStats b).currentWeight - b.filling_weight)
            / (calculateBottleStats b).bottleWeight * 100)) := by
  rw [bottleWeight_eval, currentWeight_eval, remainingPercentage_eval]
  constructor
  · intro h
    rw [h, if_neg (by norm_num)]
    exact jsRound1_zero
  · intro h
    rw [if_pos h]

/-- Witness for C2 on a bottle with `bottleWeight = 3`. -/
theorem remainingPercentage_c2_witness :
    (calculateBottleStats c2Bottle).bottleWeight > 0 ∧
    (calculateBottleStats c2Bottle).remainingPercentage
      = jsRound1 (((calculateBottleStats c2Bottle).currentWeight - c2Bottle.filling_weight)
          / (calculateBottleStats c2Bottle).bottleWeight * 100) :=
  ⟨by rw [bottleWeight_eval]; norm_num [c2Bottle],
   (remainingPercentage_c2_amended c2Bottle).2
     (by rw [bottleWeight_eval]; norm_num [c2Bottle])⟩

/-- C9: `totalUsedGas` and `remainingGasKg` are the strings produced by
`toFixed(1)` (the other stat fields are numbers by the types of
`BottleStats`); for a bottle with no operations `totalUsedGas` is the
string `"0.0"` and in particular not the number 0. -/
theorem bottleStats_types_c9 (b : Bottle) :
    (calculateBottleStats b).totalUsedGas
      = JsVal.str (jsToFixed1 (b.initial_weight - currentWeightOf b)) ∧
    (calculateBottleStats b).remainingGasKg
      = JsVal.str (jsToFixed1 (currentWeightOf b - b.filling_weight)) ∧
    (b.operations.getD [] = [] →
      (calculateBottleStats b).totalUsedGas = JsVal.str ("0.0") ∧
      (calculateBottleStats b).totalUsedGas ≠ JsVal.num 0) := by
  refine ⟨totalUsedGas_eval b, remainingGasKg_eval b, fun hemp => ?_⟩
  have hcw : currentWeightOf b = b.initial_weight := by
    cases hops : b.operations with
    | none => simp [currentWeightOf, sortedOperationsOf, hops]
    | some ops =>
        cases ops with
        | nil => simp [currentWeightOf, sortedOperationsOf, hops, jsSortDesc]
        | cons o t => rw [hops] at hemp; simp at hemp
  have h0 : b.initial_weight - currentWeightOf b = 0 := by
    rw [hcw]
    ring
  constructor
  · rw [totalUsedGas_eval, h0, jsToFixed1_zero]
  · rw [totalUsedGas_eval]
    exact fun h => JsVal.noConfusion h

/-- Witness for C9 on a bottle whose `operations` field is nullish. -/
theorem bottleStats_types_c9_witness :
    c9Bottle.operations.getD [] = [] ∧
    (calculateBottleStats c9Bottle).totalUsedGas = JsVal.str ("0.0") ∧
    (calculateBottleStats c9Bottle).totalUsedGas ≠ JsVal.num 0 :=
  ⟨rfl, ((bottleStats_types_c9 c9Bottle).2.2 rfl).1,
   ((bottleStats_types_c9 c9Bottle).2.2 rfl).2⟩
